import Mathlib

set_option maxHeartbeats 1000000

/-!
Shallow embedding of the Mufasa Real Assistant API (src/main.py and
src/server.py) for verification of its specification.

Modelling conventions:
* JSON values are the inductive `Json` below; a stored directory of JSON
  files is an association list `Store` where a write prepends (so a later
  write to the same key shadows the earlier one, matching file overwrite).
* Python stdlib `json.loads` / `json.dumps` are external to the repository,
  so they are passed to the handlers as oracle parameters
  (`parse : String → Option Json`, `dumps : List (String × Json) → String`).
* The OpenAI chat-completion client is external as well: it is an oracle
  `llm : String → String → Except String String` mapping the system prompt
  and the user prompt to either the first choice's text (`.ok`) or a raised
  exception's message (`.error`).
* `time.time()` samples are parameters (Python calls it more than once per
  handler, so each call site gets its own parameter).
* Python `str.strip()` is `pyStrip`; slicing `s[:n]` is `pyTake n`;
  f-string interpolation of an int is `toString`.
* A FastAPI handler's outcome is a `Response`: `.ok body` is an HTTP 200
  JSON reply; `.error s d` is an `HTTPException`/error `JSONResponse` with
  status `s` (an exception escaping the handler surfaces as status 500).
-/

namespace Mufasa

/-- A JSON value, as produced by Python's json module. -/
inductive Json where
  | null
  | bool (b : Bool)
  | num (n : Int)
  | str (s : String)
  | arr (elems : List Json)
  | obj (fields : List (String × Json))

/-- Lookup of a key in a parsed JSON object (Python `dict` access;
keys of a parsed object are unique, so first match is the value). -/
def dictGet (k : String) : List (String × Json) → Option Json
  | [] => none
  | (k', v) :: rest => if k = k' then some v else dictGet k rest

/-- A directory of JSON files keyed by file name (without extension). -/
abbrev Store := List (String × Json)

/-- Reading a file from a directory (`_read_json` on `_sb_path id`);
`none` when the file does not exist. -/
def lookupStore (k : String) (s : Store) : Option Json :=
  dictGet k s

/-- Writing a file into a directory (`_write_json`): overwrites any
existing file with the same name. -/
def insertStore (k : String) (v : Json) (s : Store) : Store :=
  (k, v) :: s

/-- Outcome of a handler: HTTP 200 with a JSON body, or an error status
with a detail message. -/
inductive Response where
  | ok (body : Json)
  | error (status : Nat) (detail : String)

/-- The HTTP status code of a handler outcome. -/
def Response.status : Response → Nat
  | .ok _ => 200
  | .error s _ => s

/-- Server environment: whether `OPENAI_API_KEY` is set, i.e. whether
`openai_client` is non-`None` (main.py line 39). -/
structure Env where
  hasOpenAIKey : Bool

/-- Request body of `POST /ask` (class `AskPayload`). -/
structure AskPayload where
  question : String
  user_id : Option String := none
  session_id : Option String := none
  mode : Option String := some "chat"
  context : Option (List (String × Json)) := none

/-- Request body of `POST /storyboard/generate` (class `StoryboardReq`). -/
structure StoryboardReq where
  question : String
  user_id : Option String := none
  max_slides : Int := 8

/-- Python's default `str.strip()` whitespace set (ASCII part; the Unicode
space characters Python also strips are irrelevant to these claims). -/
def isPySpace (c : Char) : Bool :=
  c = ' ' || c = '\t' || c = '\n' || c = '\r' || c = '\x0b' || c = '\x0c'

/-- Python `s.strip()`: drop leading and trailing whitespace. -/
def pyStrip (s : String) : String :=
  (((s.data.dropWhile isPySpace).reverse.dropWhile isPySpace).reverse).asString

/-- Python `s[:n]`: the first `n` characters (code points) of `s`. -/
def pyTake (n : Nat) (s : String) : String :=
  (s.data.take n).asString

/-- Python `x or d` on an int: `0` is falsy, everything else truthy. -/
def pyIntOr (n d : Int) : Int :=
  if n = 0 then d else n

/-- JSON encoding of an optional string field (Python `None` → JSON null). -/
def optStr : Option String → Json
  | none => .null
  | some s => .str s

/-- The fixed persona text of `/ask`'s system prompt (main.py lines 131-136). -/
def askSystemPromptBase : String :=
  "You are Mufasa Real Assistant — a Pan-African cultural educator.\nBe accurate, clear, and structured.\nIf the user asks for a lesson: use a short outline.\nDo not invent sources; if unsure, say so.\n"

/-- `/ask`'s system prompt: persona text, plus the serialized context when
the context mapping is non-empty (main.py lines 139-141). -/
def askSystemPrompt (dumps : List (String × Json) → String)
    (ctx : List (String × Json)) : String :=
  if ctx.isEmpty then askSystemPromptBase
  else askSystemPromptBase ++ "\nContext JSON:\n" ++ dumps ctx

/-- Handler of `POST /ask` (main.py lines 121-165). `tRec` and `tLog` are
the two `int(time.time())` samples (record's `ts`, and `_log_qa`'s file
name). Returns the response together with the knowledge directory after
the call. -/
def ask (env : Env) (dumps : List (String × Json) → String)
    (llm : String → String → Except String String) (tRec tLog : Nat)
    (knowledge : Store) (payload : AskPayload) : Response × Store :=
  let q := pyStrip payload.question
  if q = "" then (.error 400 "Missing question", knowledge)
  else if env.hasOpenAIKey = false then
    (.error 503 "OPENAI_API_KEY not set", knowledge)
  else
    let user_id := payload.user_id.getD "public"
    let ctx := payload.context.getD []
    match llm (askSystemPrompt dumps ctx) q with
    | .error e => (.error 500 ("OpenAI error: " ++ e), knowledge)
    | .ok answer =>
      let record := Json.obj [("ts", .num tRec), ("user_id", .str user_id),
        ("session_id", optStr payload.session_id),
        ("mode", optStr payload.mode),
        ("question", .str q), ("answer", .str answer)]
      (.ok record, insertStore ("qa_" ++ toString tLog) record knowledge)

/-- The effective slide bound of `/storyboard/generate` (main.py line 219):
`max(3, min(int(req.max_slides or 8), 12))`. -/
def effectiveMaxSlides (requested : Int) : Int :=
  max 3 (min (pyIntOr requested 8) 12)

/-- The system prompt of `/storyboard/generate` (main.py lines 224-239). -/
def storyboardSystemPrompt (max_slides : Int) : String :=
  "You are Mufasa\x27s Slideshow Director.\nReturn ONLY valid JSON.\nCreate a micro-lesson deck.\nJSON shape:\n\x7b\n  \"deck_title\": string,\n  \"topic\": string,\n  \"audience\": \"general\",\n  \"slides\": [\n     \x7b\"title\": string, \"bullets\": [string], \"narration\": string\x7d\n  ]\n\x7d\nMax slides: " ++ toString max_slides ++ "\nNo markdown.\n"

/-- The fallback deck built when the model's raw output is not parseable
as JSON (main.py lines 256-268). -/
def fallbackDeck (prompt raw : String) : Json :=
  .obj [("deck_title", .str "Slideshow (unparsed)"),
        ("topic", .str (pyTake 80 prompt)),
        ("audience", .str "general"),
        ("slides", .arr [
          .obj [("title", .str "Error"),
                ("bullets", .arr [.str "Model returned non-JSON output."]),
                ("narration", .str (pyTake 1500 raw))]])]

/-- The persisted storyboard object (main.py lines 271-277). -/
def storyObj (sb_id : String) (created_at : Nat) (user_id question : String)
    (deck : Json) : Json :=
  .obj [("id", .str sb_id), ("created_at", .num created_at),
        ("user_id", .str user_id), ("question", .str question),
        ("deck", deck)]

/-- Handler of `POST /storyboard/generate` (main.py lines 213-280).
`tId` and `tCreated` are the two `int(time.time())` samples (the id on
line 270 and `created_at` on line 273). Returns the response together
with the storyboard directory after the call. -/
def storyboard_generate (env : Env) (parse : String → Option Json)
    (llm : String → String → Except String String) (tId tCreated : Nat)
    (store : Store) (req : StoryboardReq) : Response × Store :=
  if env.hasOpenAIKey = false then
    (.error 503 "OPENAI_API_KEY not set", store)
  else
    let user_id := req.user_id.getD "public"
    let max_slides := effectiveMaxSlides req.max_slides
    let prompt := pyStrip req.question
    if prompt = "" then (.error 400 "Missing question", store)
    else
      match llm (storyboardSystemPrompt max_slides) prompt with
      | .error e => (.error 500 ("OpenAI error: " ++ e), store)
      | .ok raw =>
        let deck := match parse raw with
          | some j => j
          | none => fallbackDeck prompt raw
        let sb_id := "sb_" ++ toString tId
        let story := storyObj sb_id tCreated user_id prompt deck
        (.ok (.obj [("ok", .bool true), ("id", .str sb_id),
                    ("storyboard", story)]),
         insertStore sb_id story store)

/-- Handler of `GET /storyboard/get` (main.py lines 283-293). Returns the
response together with the storyboard directory after the call (the
handler never writes, which the unchanged second component makes
explicit). -/
def storyboard_get (store : Store) (id : String) : Response × Store :=
  if id = "" then (.error 400 "Missing id", store)
  else
    match lookupStore id store with
    | none => (.error 404 "Storyboard not found", store)
    | some story =>
      (.ok (.obj [("ok", .bool true), ("storyboard", story)]), store)

/-- Daily lesson index (server.py lines 86 and 96):
`(date.today().timetuple().tm_yday - 1) % len(lessons)`, with
`dayOfYear` 1-indexed (Jan 1 = 1) in the server's local time zone. -/
def lessonIndex (dayOfYear numLessons : Nat) : Nat :=
  (dayOfYear - 1) % numLessons

/-- Handler of `GET /api/swahili/today` (server.py lines 79-87).
`lessonFile` is `none` when `resources/swahili_30days.json` is absent,
else the parsed lesson list. An out-of-range index (only possible for an
empty list, where Python raises) surfaces as 500. -/
def swahili_today (lessonFile : Option (List Json)) (dayOfYear : Nat) :
    Response :=
  match lessonFile with
  | none => .error 404 "Missing resources/swahili_30days.json"
  | some lessons =>
    match lessons.get? (lessonIndex dayOfYear lessons.length) with
    | some l => .ok l
    | none => .error 500 "Internal Server Error"

/-- Handler of `GET /api/yoruba/today` (server.py lines 89-97). -/
def yoruba_today (lessonFile : Option (List Json)) (dayOfYear : Nat) :
    Response :=
  match lessonFile with
  | none => .error 404 "Missing resources/yoruba_30days.json"
  | some lessons =>
    match lessons.get? (lessonIndex dayOfYear lessons.length) with
    | some l => .ok l
    | none => .error 500 "Internal Server Error"

/-- The canned reply of `/api/chat` for an empty message (server.py
line 116). -/
def chatEmptyReply : String :=
  "I didn’t catch that, young one. Speak again with clarity."

/-- The fallback reply of `/api/chat` when the completion call raises
(server.py line 143). -/
def chatFallbackReply : String :=
  "Mufasa is silent for a moment — connection issue. Try again soon."

/-- The branch of `/api/chat` after the message string has been
extracted (server.py lines 115-143). -/
def chatWithMessage (m : String) (completion : Except String String) :
    Response :=
  let user_message := pyStrip m
  if user_message = "" then .ok (.obj [("reply", .str chatEmptyReply)])
  else
    match completion with
    | .error _ => .ok (.obj [("reply", .str chatFallbackReply)])
    | .ok text => .ok (.obj [("reply", .str (pyStrip text))])

/-- Handler of `POST /api/chat` (server.py lines 103-143). `body` is the
outcome of `await request.json()`: `none` when the body is not valid
JSON (the call raises, surfacing as 500). A non-object body makes
`data.get` raise, and a non-string `message` value makes `.strip()`
raise; both surface as 500 as well, since they occur outside the
handler's try block. -/
def chat (body : Option Json) (completion : Except String String) :
    Response :=
  match body with
  | none => .error 500 "Internal Server Error"
  | some (Json.obj fields) =>
    match dictGet "message" fields with
    | none => chatWithMessage "" completion
    | some (Json.str m) => chatWithMessage m completion
    | some _ => .error 500 "Internal Server Error"
  | some _ => .error 500 "Internal Server Error"

/-- Predicate used to state the Deck-shape invariant: the value is a JSON
object carrying the four Deck fields (title/topic/audience/slides). -/
def hasDeckShape (j : Json) : Bool :=
  match j with
  | .obj fields =>
    (dictGet "deck_title" fields).isSome && (dictGet "topic" fields).isSome
      && (dictGet "audience" fields).isSome
      && (dictGet "slides" fields).isSome
  | _ => false

/-- Field access on a JSON object value (`none` for non-objects or
missing fields); used to state properties of stored storyboards. -/
def getField (k : String) : Json → Option Json
  | .obj fields => dictGet k fields
  | _ => none

/-! ### Store lemmas -/

theorem lookupStore_insert_self (k : String) (v : Json) (s : Store) :
    lookupStore k (insertStore k v s) = some v := by
  simp [lookupStore, insertStore, dictGet]

theorem lookupStore_insert_ne (k k' : String) (v : Json) (s : Store)
    (h : k ≠ k') : lookupStore k (insertStore k' v s) = lookupStore k s := by
  simp [lookupStore, insertStore, dictGet, h]

/-! ### Decimal representation of naturals

`Nat.repr` (used by the `f"sb_{int(time.time())}"` id format via `toString`)
is injective; proved by relating `Nat.toDigitsCore` to a structural
most-significant-first digit list. -/

/-- Decimal digit characters of `n`, most significant first. -/
def decimalDigits (n : Nat) : List Char :=
  if _h : n < 10 then [Nat.digitChar n]
  else decimalDigits (n / 10) ++ [Nat.digitChar (n % 10)]
  termination_by n
  decreasing_by exact Nat.div_lt_self (by omega) (by omega)

theorem decimalDigits_lt (n : Nat) (h : n < 10) :
    decimalDigits n = [Nat.digitChar n] := by
  rw [decimalDigits]; simp [h]

theorem decimalDigits_ge (n : Nat) (h : ¬ n < 10) :
    decimalDigits n = decimalDigits (n / 10) ++ [Nat.digitChar (n % 10)] := by
  conv_lhs => rw [decimalDigits]
  simp [h]

theorem toDigitsCore_acc (f : Nat) : ∀ (n : Nat) (ds : List Char),
    Nat.toDigitsCore 10 f n ds = Nat.toDigitsCore 10 f n [] ++ ds := by
  induction f with
  | zero => intro n ds; rfl
  | succ f ih =>
    intro n ds
    simp only [Nat.toDigitsCore]
    by_cases h : n / 10 = 0
    · simp [h]
    · simp only [h, if_false]
      rw [ih (n / 10) (Nat.digitChar (n % 10) :: ds),
        ih (n / 10) [Nat.digitChar (n % 10)]]
      simp

theorem toDigitsCore_eq_decimalDigits : ∀ (n f : Nat), n < f →
    Nat.toDigitsCore 10 f n [] = decimalDigits n := by
  intro n
  induction n using Nat.strong_induction_on with
  | _ n ih =>
    intro f hf
    match f with
    | f + 1 =>
      simp only [Nat.toDigitsCore]
      by_cases h : n / 10 = 0
      · have hn : n < 10 := by omega
        rw [decimalDigits_lt n hn]
        simp [h, Nat.mod_eq_of_lt hn]
      · have hn : ¬ n < 10 := fun hlt => h (Nat.div_eq_of_lt hlt)
        have hdiv : n / 10 < n := Nat.div_lt_self (by omega) (by omega)
        simp only [h, if_false]
        rw [toDigitsCore_acc, ih (n / 10) hdiv f (by omega),
          decimalDigits_ge n hn]

theorem digitChar_inj_lt10 : ∀ (a b : Fin 10),
    Nat.digitChar a = Nat.digitChar b → a = b := by decide

theorem decimalDigits_ne_nil (n : Nat) : decimalDigits n ≠ [] := by
  by_cases h : n < 10
  · rw [decimalDigits_lt n h]; simp
  · rw [decimalDigits_ge n h]; simp

theorem decimalDigits_injective : ∀ m n : Nat,
    decimalDigits m = decimalDigits n → m = n := by
  intro m
  induction m using Nat.strong_induction_on with
  | _ m ih =>
    intro n hmn
    by_cases hm : m < 10 <;> by_cases hn : n < 10
    · rw [decimalDigits_lt m hm, decimalDigits_lt n hn] at hmn
      simp only [List.cons.injEq, and_true] at hmn
      exact congrArg Fin.val (digitChar_inj_lt10 ⟨m, hm⟩ ⟨n, hn⟩ hmn)
    · rw [decimalDigits_lt m hm, decimalDigits_ge n hn] at hmn
      have hlen := congrArg List.length hmn
      simp at hlen
      exact (decimalDigits_ne_nil (n / 10) hlen).elim
    · rw [decimalDigits_ge m hm, decimalDigits_lt n hn] at hmn
      have hlen := congrArg List.length hmn
      simp at hlen
      exact (decimalDigits_ne_nil (m / 10) hlen).elim
    · rw [decimalDigits_ge m hm, decimalDigits_ge n hn] at hmn
      have hlen : ([Nat.digitChar (m % 10)] : List Char).length =
          ([Nat.digitChar (n % 10)] : List Char).length := rfl
      obtain ⟨h1, h2⟩ := List.append_inj' hmn hlen
      have hd : m / 10 = n / 10 :=
        ih (m / 10) (Nat.div_lt_self (by omega) (by omega)) (n / 10) h1
      have h2' : Nat.digitChar (m % 10) = Nat.digitChar (n % 10) := by
        simpa using h2
      have hmod : m % 10 = n % 10 :=
        congrArg Fin.val (digitChar_inj_lt10 ⟨m % 10, Nat.mod_lt _ (by omega)⟩
          ⟨n % 10, Nat.mod_lt _ (by omega)⟩ h2')
      omega

theorem repr_eq_decimalDigits (n : Nat) :
    Nat.repr n = (decimalDigits n).asString := by
  rw [Nat.repr, Nat.toDigits, toDigitsCore_eq_decimalDigits n (n + 1) (by omega)]

theorem nat_repr_injective : ∀ m n : Nat, Nat.repr m = Nat.repr n → m = n := by
  intro m n h
  rw [repr_eq_decimalDigits, repr_eq_decimalDigits] at h
  apply decimalDigits_injective
  have := congrArg String.data h
  simpa [List.asString] using this

theorem string_append_left_cancel (a b c : String) (h : a ++ b = a ++ c) :
    b = c := by
  have := congrArg String.data h
  simp [String.data_append] at this
  exact String.ext this

/-- A storyboard id `sb_<t>` is never the empty string. -/
theorem sbId_ne_empty (s : String) : "sb_" ++ s ≠ "" := by
  intro h
  have hlen := congrArg String.length h
  rw [String.length_append] at hlen
  have h3 : ("sb_" : String).length = 3 := rfl
  have h0 : ("" : String).length = 0 := rfl
  omega

/-- Distinct timestamp seconds yield distinct storyboard ids. -/
theorem sbId_injective (t1 t2 : Nat) (h : t1 ≠ t2) :
    "sb_" ++ toString t1 ≠ "sb_" ++ toString t2 := fun hid =>
  h (nat_repr_injective t1 t2 (string_append_left_cancel _ _ _ hid))

/-! ### Claim C1 -/

/-- C1: for every raw model output that is not parseable as JSON,
`/storyboard/generate` stores and returns a fallback deck titled
"Slideshow (unparsed)", whose topic is the first 80 characters of the
(trimmed) question, containing exactly one slide titled "Error" whose
narration is the first 1500 characters of the raw text, and the HTTP
response is 200, not an error status. -/
theorem C1_unparsed_fallback (parse : String → Option Json)
    (llm : String → String → Except String String) (tId tCreated : Nat)
    (store : Store) (req : StoryboardReq) (raw : String)
    (hq : pyStrip req.question ≠ "")
    (hllm : llm (storyboardSystemPrompt (effectiveMaxSlides req.max_slides))
      (pyStrip req.question) = .ok raw)
    (hparse : parse raw = none) :
    (storyboard_generate ⟨true⟩ parse llm tId tCreated store req).1.status
        = 200 ∧
    (storyboard_generate ⟨true⟩ parse llm tId tCreated store req).1 =
      .ok (.obj [("ok", .bool true), ("id", .str ("sb_" ++ toString tId)),
        ("storyboard", storyObj ("sb_" ++ toString tId) tCreated
          (req.user_id.getD "public") (pyStrip req.question)
          (.obj [("deck_title", .str "Slideshow (unparsed)"),
                 ("topic", .str (pyTake 80 (pyStrip req.question))),
                 ("audience", .str "general"),
                 ("slides", .arr [.obj [("title", .str "Error"),
                   ("bullets", .arr [.str "Model returned non-JSON output."]),
                   ("narration", .str (pyTake 1500 raw))]])]))]) ∧
    lookupStore ("sb_" ++ toString tId)
        (storyboard_generate ⟨true⟩ parse llm tId tCreated store req).2 =
      some (storyObj ("sb_" ++ toString tId) tCreated
        (req.user_id.getD "public") (pyStrip req.question)
        (.obj [("deck_title", .str "Slideshow (unparsed)"),
               ("topic", .str (pyTake 80 (pyStrip req.question))),
               ("audience", .str "general"),
               ("slides", .arr [.obj [("title", .str "Error"),
                 ("bullets", .arr [.str "Model returned non-JSON output."]),
                 ("narration", .str (pyTake 1500 raw))]])])) := by
  refine ⟨?_, ?_, ?_⟩ <;>
    simp [storyboard_generate, hq, hllm, hparse, fallbackDeck,
      Response.status, lookupStore_insert_self]

/-- C1, witnessed at a concrete unparseable output. -/
theorem C1_witness :
    (storyboard_generate ⟨true⟩ (fun _ => none) (fun _ _ => .ok "oops")
        5 6 [] ⟨"Q", none, 8⟩).1.status = 200 ∧
    (storyboard_generate ⟨true⟩ (fun _ => none) (fun _ _ => .ok "oops")
        5 6 [] ⟨"Q", none, 8⟩).1 =
      .ok (.obj [("ok", .bool true), ("id", .str ("sb_" ++ toString 5)),
        ("storyboard", storyObj ("sb_" ++ toString 5) 6
          ((none : Option String).getD "public") (pyStrip "Q")
          (.obj [("deck_title", .str "Slideshow (unparsed)"),
                 ("topic", .str (pyTake 80 (pyStrip "Q"))),
                 ("audience", .str "general"),
                 ("slides", .arr [.obj [("title", .str "Error"),
                   ("bullets", .arr [.str "Model returned non-JSON output."]),
                   ("narration", .str (pyTake 1500 "oops"))]])]))]) ∧
    lookupStore ("sb_" ++ toString 5)
        (storyboard_generate ⟨true⟩ (fun _ => none) (fun _ _ => .ok "oops")
          5 6 [] ⟨"Q", none, 8⟩).2 =
      some (storyObj ("sb_" ++ toString 5) 6
        ((none : Option String).getD "public") (pyStrip "Q")
        (.obj [("deck_title", .str "Slideshow (unparsed)"),
               ("topic", .str (pyTake 80 (pyStrip "Q"))),
               ("audience", .str "general"),
               ("slides", .arr [.obj [("title", .str "Error"),
                 ("bullets", .arr [.str "Model returned non-JSON output."]),
                 ("narration", .str (pyTake 1500 "oops"))]])])) :=
  C1_unparsed_fallback (fun _ => none) (fun _ _ => .ok "oops") 5 6 []
    ⟨"Q", none, 8⟩ "oops" (by decide) rfl rfl

/-! ### Claim C2 -/

/-- C2 counterexample: the claim says every empty/whitespace-only question
gets a 400 from both endpoints. But in `storyboard_generate` the credential
check (main.py line 215) precedes the question check (line 221), so with no
credential configured a whitespace-only question gets 503, not 400. -/
theorem C2_counterexample :
    (storyboard_generate ⟨false⟩ (fun _ => none) (fun _ _ => .ok "")
        0 0 [] ⟨" ", none, 8⟩).1 = .error 503 "OPENAI_API_KEY not set" ∧
    (storyboard_generate ⟨false⟩ (fun _ => none) (fun _ _ => .ok "")
        0 0 [] ⟨" ", none, 8⟩).1.status ≠ 400 :=
  ⟨rfl, by decide⟩

/-- C2 (amended): for every empty or whitespace-only question, `/ask`
returns 400 and writes nothing; `/storyboard/generate` returns 400 and
writes nothing when a completion credential is configured, and 503 (still
writing nothing) when none is. -/
theorem C2_empty_question (env : Env) (dumps : List (String × Json) → String)
    (llm llm2 : String → String → Except String String)
    (parse : String → Option Json) (tRec tLog tId tCreated : Nat)
    (knowledge store : Store) (payload : AskPayload) (req : StoryboardReq)
    (hq : pyStrip payload.question = "") (hq2 : pyStrip req.question = "") :
    ask env dumps llm tRec tLog knowledge payload =
      (.error 400 "Missing question", knowledge) ∧
    (env.hasOpenAIKey = true →
      storyboard_generate env parse llm2 tId tCreated store req =
        (.error 400 "Missing question", store)) ∧
    (env.hasOpenAIKey = false →
      storyboard_generate env parse llm2 tId tCreated store req =
        (.error 503 "OPENAI_API_KEY not set", store)) := by
  refine ⟨?_, ?_, ?_⟩
  · simp [ask, hq]
  · intro h; simp [storyboard_generate, h, hq2]
  · intro h; simp [storyboard_generate, h]

/-- C2, witnessed at a concrete whitespace-only question. -/
theorem C2_witness :
    ask ⟨true⟩ (fun _ => "") (fun _ _ => .ok "a") 0 0 []
      ⟨"  ", none, none, some "chat", none⟩ =
        (.error 400 "Missing question", []) ∧
    ((⟨true⟩ : Env).hasOpenAIKey = true →
      storyboard_generate ⟨true⟩ (fun _ => none) (fun _ _ => .ok "a") 0 0 []
        ⟨"  ", none, 8⟩ = (.error 400 "Missing question", [])) ∧
    ((⟨true⟩ : Env).hasOpenAIKey = false →
      storyboard_generate ⟨true⟩ (fun _ => none) (fun _ _ => .ok "a") 0 0 []
        ⟨"  ", none, 8⟩ = (.error 503 "OPENAI_API_KEY not set", [])) :=
  C2_empty_question ⟨true⟩ (fun _ => "") (fun _ _ => .ok "a")
    (fun _ _ => .ok "a") (fun _ => none) 0 0 0 0 [] []
    ⟨"  ", none, none, some "chat", none⟩ ⟨"  ", none, 8⟩
    (by decide) (by decide)

/-! ### Claim C3 -/

/-- C3 counterexample: the claim says the effective bound is the requested
value clamped to [3,12] for every request; clamping 0 would give 3, but
`int(req.max_slides or 8)` (main.py line 219) turns a requested 0 into the
default 8 because Python treats 0 as falsy. -/
theorem C3_counterexample :
    effectiveMaxSlides 0 = 8 ∧ max 3 (min (0 : Int) 12) = 3 ∧ (8 : Int) ≠ 3 :=
  ⟨by decide, by decide, by decide⟩

/-- C3 (amended): for every nonzero requested `max_slides`, the effective
bound is the requested value clamped to [3,12] (1 yields 3, 50 yields 12,
8 yields 8); a requested 0 falls back to the default 8. -/
theorem C3_clamp (n : Int) (hn : n ≠ 0) :
    effectiveMaxSlides n = max 3 (min n 12) ∧
    effectiveMaxSlides 1 = 3 ∧ effectiveMaxSlides 50 = 12 ∧
    effectiveMaxSlides 8 = 8 ∧ effectiveMaxSlides 0 = 8 := by
  refine ⟨?_, by decide, by decide, by decide, by decide⟩
  simp [effectiveMaxSlides, pyIntOr, hn]

/-- C3, witnessed at the requested value 1. -/
theorem C3_witness :
    effectiveMaxSlides 1 = max 3 (min 1 12) ∧
    effectiveMaxSlides 1 = 3 ∧ effectiveMaxSlides 50 = 12 ∧
    effectiveMaxSlides 8 = 8 ∧ effectiveMaxSlides 0 = 8 :=
  C3_clamp 1 (by decide)

/-! ### Claim C4 -/

/-- C4: round-trip — every successful `/storyboard/generate` returning id
`sb_<t>` is followed (absent intervening writes to that id) by a
`/storyboard/get?id=sb_<t>` answering 200 with a storyboard identical to
the one returned by generate (hence identical question and deck), and the
get writes nothing. -/
theorem C4_roundtrip (parse : String → Option Json)
    (llm : String → String → Except String String) (tId tCreated : Nat)
    (store : Store) (req : StoryboardReq) (raw : String)
    (hq : pyStrip req.question ≠ "")
    (hllm : llm (storyboardSystemPrompt (effectiveMaxSlides req.max_slides))
      (pyStrip req.question) = .ok raw) :
    ∃ story : Json,
      (storyboard_generate ⟨true⟩ parse llm tId tCreated store req).1 =
        .ok (.obj [("ok", .bool true), ("id", .str ("sb_" ++ toString tId)),
          ("storyboard", story)]) ∧
      storyboard_get
          (storyboard_generate ⟨true⟩ parse llm tId tCreated store req).2
          ("sb_" ++ toString tId) =
        (.ok (.obj [("ok", .bool true), ("storyboard", story)]),
         (storyboard_generate ⟨true⟩ parse llm tId tCreated store req).2) := by
  refine ⟨storyObj ("sb_" ++ toString tId) tCreated (req.user_id.getD "public")
    (pyStrip req.question)
    (match parse raw with
     | some j => j
     | none => fallbackDeck (pyStrip req.question) raw), ?_, ?_⟩
  · simp [storyboard_generate, hq, hllm]
  · simp [storyboard_generate, storyboard_get, hq, hllm,
      sbId_ne_empty, lookupStore_insert_self]

/-- C4, witnessed at a concrete successful generation. -/
theorem C4_witness :
    ∃ story : Json,
      (storyboard_generate ⟨true⟩ (fun _ => none) (fun _ _ => .ok "raw")
          9 10 [] ⟨"Hello", some "u1", 5⟩).1 =
        .ok (.obj [("ok", .bool true), ("id", .str ("sb_" ++ toString 9)),
          ("storyboard", story)]) ∧
      storyboard_get
          (storyboard_generate ⟨true⟩ (fun _ => none) (fun _ _ => .ok "raw")
            9 10 [] ⟨"Hello", some "u1", 5⟩).2
          ("sb_" ++ toString 9) =
        (.ok (.obj [("ok", .bool true), ("storyboard", story)]),
         (storyboard_generate ⟨true⟩ (fun _ => none) (fun _ _ => .ok "raw")
           9 10 [] ⟨"Hello", some "u1", 5⟩).2) :=
  C4_roundtrip (fun _ => none) (fun _ _ => .ok "raw") 9 10 []
    ⟨"Hello", some "u1", 5⟩ "raw" (by decide) rfl

/-! ### Claim C5 -/

/-- C5 counterexample: the claim says the stored deck has the full Deck
shape whatever text the model returns. But the code's fallback (main.py
line 254) only triggers when `json.loads` fails: the raw text "42" parses
as the JSON number 42 (`json.loads("42") == 42`), which is stored as the
deck verbatim and has none of the four Deck fields — yet the response is
still 200. -/
theorem C5_counterexample :
    (storyboard_generate ⟨true⟩ (fun _ => some (.num 42))
        (fun _ _ => .ok "42") 7 7 [] ⟨"Q", none, 8⟩).2 =
      [("sb_7", storyObj "sb_7" 7 "public" "Q" (.num 42))] ∧
    getField "deck" (storyObj "sb_7" 7 "public" "Q" (.num 42)) =
      some (.num 42) ∧
    hasDeckShape (.num 42) = false ∧
    (storyboard_generate ⟨true⟩ (fun _ => some (.num 42))
        (fun _ _ => .ok "42") 7 7 [] ⟨"Q", none, 8⟩).1.status = 200 :=
  ⟨rfl, rfl, rfl, rfl⟩

/-- C5 (amended): when the raw output is not parseable as JSON, the stored
deck is the synthetic fallback deck and has the full Deck shape
(title/topic/audience/slides, the failure being a single synthetic slide,
not a separate error entity); when the raw output parses as any JSON
value, that value is stored as the deck verbatim, without shape
validation. -/
theorem C5_deck_shape (parse : String → Option Json)
    (llm : String → String → Except String String) (tId tCreated : Nat)
    (store : Store) (req : StoryboardReq) (raw : String)
    (hq : pyStrip req.question ≠ "")
    (hllm : llm (storyboardSystemPrompt (effectiveMaxSlides req.max_slides))
      (pyStrip req.question) = .ok raw) :
    ∃ deck : Json,
      lookupStore ("sb_" ++ toString tId)
          (storyboard_generate ⟨true⟩ parse llm tId tCreated store req).2 =
        some (storyObj ("sb_" ++ toString tId) tCreated
          (req.user_id.getD "public") (pyStrip req.question) deck) ∧
      (parse raw = none →
        deck = fallbackDeck (pyStrip req.question) raw ∧
        hasDeckShape deck = true) ∧
      (∀ j, parse raw = some j → deck = j) := by
  refine ⟨(match parse raw with
    | some j => j
    | none => fallbackDeck (pyStrip req.question) raw), ?_, ?_, ?_⟩
  · simp [storyboard_generate, hq, hllm, lookupStore_insert_self]
  · intro h
    rw [h]
    exact ⟨rfl, by simp [hasDeckShape, fallbackDeck, dictGet]⟩
  · intro j h
    rw [h]

/-- C5, witnessed at a concrete unparseable output. -/
theorem C5_witness :
    ∃ deck : Json,
      lookupStore ("sb_" ++ toString 3)
          (storyboard_generate ⟨true⟩ (fun _ => none) (fun _ _ => .ok "bad")
            3 4 [] ⟨"topic?", none, 8⟩).2 =
        some (storyObj ("sb_" ++ toString 3) 4
          ((none : Option String).getD "public") (pyStrip "topic?") deck) ∧
      ((fun _ => (none : Option Json)) "bad" = none →
        deck = fallbackDeck (pyStrip "topic?") "bad" ∧
        hasDeckShape deck = true) ∧
      (∀ j, (fun _ => (none : Option Json)) "bad" = some j → deck = j) :=
  C5_deck_shape (fun _ => none) (fun _ _ => .ok "bad") 3 4 []
    ⟨"topic?", none, 8⟩ "bad" (by decide) rfl

/-! ### Claim C6 -/

/-- C6: daily lesson selection is the pure function `(day_of_year - 1) mod
30` over a 30-entry lesson set (both language tracks); the selected entry
is determined by the day, day-of-year 1 selects index 0 and day-of-year 31
selects index 0 again. -/
theorem C6_daily_lesson (sw yo : List Json) (d : Nat)
    (hsw : sw.length = 30) (hyo : yo.length = 30) (_hd : 1 ≤ d) :
    (∃ l, sw.get? (lessonIndex d 30) = some l ∧
      swahili_today (some sw) d = .ok l) ∧
    (∃ l, yo.get? (lessonIndex d 30) = some l ∧
      yoruba_today (some yo) d = .ok l) ∧
    lessonIndex d 30 = (d - 1) % 30 ∧
    lessonIndex 1 30 = 0 ∧ lessonIndex 31 30 = 0 := by
  have h1 : lessonIndex d 30 < sw.length := by
    rw [hsw]; exact Nat.mod_lt _ (by omega)
  have h2 : lessonIndex d 30 < yo.length := by
    rw [hyo]; exact Nat.mod_lt _ (by omega)
  refine ⟨⟨sw.get ⟨lessonIndex d 30, h1⟩, ?_, ?_⟩,
    ⟨yo.get ⟨lessonIndex d 30, h2⟩, ?_, ?_⟩, rfl, rfl, rfl⟩
  · exact List.get?_eq_get h1
  · simp [swahili_today, hsw, List.getElem?_eq_getElem h1]
  · exact List.get?_eq_get h2
  · simp [yoruba_today, hyo, List.getElem?_eq_getElem h2]

/-- C6, witnessed on a concrete 30-entry lesson list at day-of-year 31. -/
theorem C6_witness :
    (∃ l, (List.replicate 30 Json.null).get? (lessonIndex 31 30) = some l ∧
      swahili_today (some (List.replicate 30 Json.null)) 31 = .ok l) ∧
    (∃ l, (List.replicate 30 Json.null).get? (lessonIndex 31 30) = some l ∧
      yoruba_today (some (List.replicate 30 Json.null)) 31 = .ok l) ∧
    lessonIndex 31 30 = (31 - 1) % 30 ∧
    lessonIndex 1 30 = 0 ∧ lessonIndex 31 30 = 0 :=
  C6_daily_lesson (List.replicate 30 Json.null) (List.replicate 30 Json.null)
    31 (by simp) (by simp) (by decide)

/-! ### Claim C7 -/

/-- C7: `/storyboard/get` on an id with no stored storyboard returns 404
and leaves the store unchanged (creates no file); an empty/missing id
parameter yields 400 (also leaving the store unchanged). -/
theorem C7_get_missing (store : Store) (id : String) :
    (id = "" → storyboard_get store id = (.error 400 "Missing id", store)) ∧
    (id ≠ "" → lookupStore id store = none →
      storyboard_get store id =
        (.error 404 "Storyboard not found", store)) := by
  constructor
  · intro h; simp [storyboard_get, h]
  · intro h hn; simp [storyboard_get, h, hn]

/-- C7, witnessed at a nonexistent id and at a missing id. -/
theorem C7_witness :
    storyboard_get [] "nope" = (.error 404 "Storyboard not found", []) ∧
    storyboard_get [] "" = (.error 400 "Missing id", []) :=
  ⟨(C7_get_missing [] "nope").2 (by decide) rfl,
   (C7_get_missing [] "").1 rfl⟩

/-! ### Claim C8 -/

/-- C8 counterexample: the id is `sb_<int(time.time())>` with one-second
resolution, so two generation events in the same second (both time samples
100 here) produce the SAME id `sb_100`; the second write overwrites the
first, whose storyboard (question "first") is no longer retrievable. The
claimed per-event uniqueness fails. -/
theorem C8_counterexample :
    (storyboard_generate ⟨true⟩ (fun _ => none) (fun _ _ => .ok "r")
        100 100 [] ⟨"first", none, 8⟩).1 =
      .ok (.obj [("ok", .bool true), ("id", .str "sb_100"),
        ("storyboard", storyObj "sb_100" 100 "public" "first"
          (fallbackDeck "first" "r"))]) ∧
    (storyboard_generate ⟨true⟩ (fun _ => none) (fun _ _ => .ok "r")
        100 100
        (storyboard_generate ⟨true⟩ (fun _ => none) (fun _ _ => .ok "r")
          100 100 [] ⟨"first", none, 8⟩).2 ⟨"second", none, 8⟩).1 =
      .ok (.obj [("ok", .bool true), ("id", .str "sb_100"),
        ("storyboard", storyObj "sb_100" 100 "public" "second"
          (fallbackDeck "second" "r"))]) ∧
    lookupStore "sb_100"
        (storyboard_generate ⟨true⟩ (fun _ => none) (fun _ _ => .ok "r")
          100 100
          (storyboard_generate ⟨true⟩ (fun _ => none) (fun _ _ => .ok "r")
            100 100 [] ⟨"first", none, 8⟩).2 ⟨"second", none, 8⟩).2 =
      some (storyObj "sb_100" 100 "public" "second"
        (fallbackDeck "second" "r")) ∧
    storyObj "sb_100" 100 "public" "second" (fallbackDeck "second" "r") ≠
      storyObj "sb_100" 100 "public" "first" (fallbackDeck "first" "r") := by
  refine ⟨rfl, rfl, rfl, fun h => ?_⟩
  have := congrArg (getField "question") h
  simp [storyObj, getField, dictGet] at this

/-- C8 (amended): ids are derived from the creation timestamp with
one-second resolution; generation events with distinct timestamp seconds
get distinct ids, each storyboard then being retrievable under its own id
(the sole lookup key), while events sharing a second collide on the same
id and the later write overwrites the earlier. -/
theorem C8_id_uniqueness (parse : String → Option Json)
    (llm : String → String → Except String String) (t1 t2 : Nat)
    (store : Store) (req1 req2 : StoryboardReq) (raw1 raw2 : String)
    (hq1 : pyStrip req1.question ≠ "") (hq2 : pyStrip req2.question ≠ "")
    (hllm1 : llm (storyboardSystemPrompt (effectiveMaxSlides req1.max_slides))
      (pyStrip req1.question) = .ok raw1)
    (hllm2 : llm (storyboardSystemPrompt (effectiveMaxSlides req2.max_slides))
      (pyStrip req2.question) = .ok raw2)
    (hne : t1 ≠ t2) :
    "sb_" ++ toString t1 ≠ "sb_" ++ toString t2 ∧
    ∃ story1 story2 : Json,
      getField "question" story1 = some (.str (pyStrip req1.question)) ∧
      getField "question" story2 = some (.str (pyStrip req2.question)) ∧
      lookupStore ("sb_" ++ toString t2)
          (storyboard_generate ⟨true⟩ parse llm t2 t2
            (storyboard_generate ⟨true⟩ parse llm t1 t1 store req1).2
            req2).2 = some story2 ∧
      lookupStore ("sb_" ++ toString t1)
          (storyboard_generate ⟨true⟩ parse llm t2 t2
            (storyboard_generate ⟨true⟩ parse llm t1 t1 store req1).2
            req2).2 = some story1 := by
  have hid : "sb_" ++ toString t1 ≠ "sb_" ++ toString t2 :=
    sbId_injective t1 t2 hne
  refine ⟨hid,
    storyObj ("sb_" ++ toString t1) t1 (req1.user_id.getD "public")
      (pyStrip req1.question)
      (match parse raw1 with
       | some j => j
       | none => fallbackDeck (pyStrip req1.question) raw1),
    storyObj ("sb_" ++ toString t2) t2 (req2.user_id.getD "public")
      (pyStrip req2.question)
      (match parse raw2 with
       | some j => j
       | none => fallbackDeck (pyStrip req2.question) raw2),
    ?_, ?_, ?_, ?_⟩
  · simp [getField, storyObj, dictGet]
  · simp [getField, storyObj, dictGet]
  · simp [storyboard_generate, hq1, hq2, hllm1, hllm2,
      lookupStore_insert_self]
  · simp [storyboard_generate, hq1, hq2, hllm1, hllm2,
      lookupStore_insert_ne _ _ _ _ hid, lookupStore_insert_self]

/-- C8, witnessed at two generations in distinct seconds. -/
theorem C8_witness :
    "sb_" ++ toString 1 ≠ "sb_" ++ toString 2 ∧
    ∃ story1 story2 : Json,
      getField "question" story1 = some (.str (pyStrip "a")) ∧
      getField "question" story2 = some (.str (pyStrip "b")) ∧
      lookupStore ("sb_" ++ toString 2)
          (storyboard_generate ⟨true⟩ (fun _ => none) (fun _ _ => .ok "r")
            2 2
            (storyboard_generate ⟨true⟩ (fun _ => none) (fun _ _ => .ok "r")
              1 1 [] ⟨"a", none, 8⟩).2
            ⟨"b", none, 8⟩).2 = some story2 ∧
      lookupStore ("sb_" ++ toString 1)
          (storyboard_generate ⟨true⟩ (fun _ => none) (fun _ _ => .ok "r")
            2 2
            (storyboard_generate ⟨true⟩ (fun _ => none) (fun _ _ => .ok "r")
              1 1 [] ⟨"a", none, 8⟩).2
            ⟨"b", none, 8⟩).2 = some story1 :=
  C8_id_uniqueness (fun _ => none) (fun _ _ => .ok "r") 1 2 []
    ⟨"a", none, 8⟩ ⟨"b", none, 8⟩ "r" "r" (by decide) (by decide)
    rfl rfl (by decide)

/-! ### Claim C9 -/

/-- C9 counterexample: the claim says every request to either endpoint
fails with 503 when no credential is configured. But in `ask` the question
check (main.py line 124) precedes the credential check (line 127), so an
all-whitespace question gets 400, not 503, even with no credential. -/
theorem C9_counterexample :
    (ask ⟨false⟩ (fun _ => "") (fun _ _ => .ok "") 0 0 []
        ⟨"   ", none, none, some "chat", none⟩).1 =
      .error 400 "Missing question" ∧
    (ask ⟨false⟩ (fun _ => "") (fun _ _ => .ok "") 0 0 []
        ⟨"   ", none, none, some "chat", none⟩).1.status ≠ 503 :=
  ⟨rfl, by decide⟩

/-- C9 (amended): with no completion credential configured,
`/storyboard/generate` always fails with 503, and `/ask` fails with 503
whenever its question is non-empty after trimming (an empty question gets
400 first); in every case the outcome is a constant independent of the
completion client (so the completion API is never contacted) and the
store is returned unchanged (nothing is written). -/
theorem C9_no_credential (dumps : List (String × Json) → String)
    (llm llm2 : String → String → Except String String)
    (parse : String → Option Json) (tRec tLog tId tCreated : Nat)
    (knowledge store : Store) (payload : AskPayload) (req : StoryboardReq) :
    storyboard_generate ⟨false⟩ parse llm2 tId tCreated store req =
      (.error 503 "OPENAI_API_KEY not set", store) ∧
    (pyStrip payload.question ≠ "" →
      ask ⟨false⟩ dumps llm tRec tLog knowledge payload =
        (.error 503 "OPENAI_API_KEY not set", knowledge)) ∧
    (pyStrip payload.question = "" →
      ask ⟨false⟩ dumps llm tRec tLog knowledge payload =
        (.error 400 "Missing question", knowledge)) := by
  refine ⟨by simp [storyboard_generate], ?_, ?_⟩
  · intro h; simp [ask, h]
  · intro h; simp [ask, h]

/-- C9, witnessed with no credential configured. -/
theorem C9_witness :
    storyboard_generate ⟨false⟩ (fun _ => none) (fun _ _ => .ok "x") 0 0 []
      ⟨"Q", none, 8⟩ = (.error 503 "OPENAI_API_KEY not set", []) ∧
    (pyStrip "Q" ≠ "" →
      ask ⟨false⟩ (fun _ => "") (fun _ _ => .ok "x") 0 0 []
        ⟨"Q", none, none, some "chat", none⟩ =
          (.error 503 "OPENAI_API_KEY not set", [])) ∧
    (pyStrip "Q" = "" →
      ask ⟨false⟩ (fun _ => "") (fun _ _ => .ok "x") 0 0 []
        ⟨"Q", none, none, some "chat", none⟩ =
          (.error 400 "Missing question", [])) :=
  C9_no_credential (fun _ => "") (fun _ _ => .ok "x") (fun _ _ => .ok "x")
    (fun _ => none) 0 0 0 0 [] [] ⟨"Q", none, none, some "chat", none⟩
    ⟨"Q", none, 8⟩

/-! ### Claim C10 -/

/-- C10 counterexample: the claim says `/api/chat` never returns an error
status, for every request. But `await request.json()` (server.py line 112)
is outside the handler's try block: a request whose body is not valid
JSON makes it raise, and the unhandled exception surfaces as HTTP 500,
not 200. -/
theorem C10_counterexample :
    chat none (.ok "hello") = .error 500 "Internal Server Error" ∧
    (chat none (.ok "hello")).status ≠ 200 :=
  ⟨rfl, by decide⟩

/-- C10 (amended): for every request whose body parses as a JSON object
whose "message" field is a string (or absent, defaulting to ""),
`/api/chat` returns HTTP 200 with a `reply` field: the fixed canned reply
when the message is empty or whitespace-only, the fixed fallback reply
when the completion call raises, and the trimmed completion text
otherwise — unlike `/ask`, which returns 400/500 in the analogous cases.
Bodies that are not valid JSON, are non-objects, or carry a non-string
message raise and surface as 500. -/
theorem C10_chat_replies (fields : List (String × Json)) (m : String)
    (completion : Except String String)
    (hm : dictGet "message" fields = some (.str m) ∨
      (dictGet "message" fields = none ∧ m = "")) :
    ∃ reply : String,
      chat (some (.obj fields)) completion =
        .ok (.obj [("reply", .str reply)]) ∧
      (chat (some (.obj fields)) completion).status = 200 ∧
      (pyStrip m = "" → reply = chatEmptyReply) ∧
      (pyStrip m ≠ "" → ∀ e, completion = .error e →
        reply = chatFallbackReply) ∧
      (pyStrip m ≠ "" → ∀ t, completion = .ok t → reply = pyStrip t) := by
  have hchat : chat (some (.obj fields)) completion
      = chatWithMessage m completion := by
    rcases hm with h | ⟨h, hm0⟩
    · simp [chat, h]
    · subst hm0; simp [chat, h]
  by_cases hms : pyStrip m = ""
  · refine ⟨chatEmptyReply, ?_, ?_, fun _ => rfl,
      fun hne => absurd hms hne, fun hne => absurd hms hne⟩
    · rw [hchat]; simp [chatWithMessage, hms]
    · rw [hchat]; simp [chatWithMessage, hms, Response.status]
  · match completion with
    | .error e =>
      refine ⟨chatFallbackReply, ?_, ?_, fun h0 => absurd h0 hms,
        fun _ _ _ => rfl, fun _ t ht => Except.noConfusion ht⟩
      · rw [hchat]; simp [chatWithMessage, hms]
      · rw [hchat]; simp [chatWithMessage, hms, Response.status]
    | .ok t =>
      refine ⟨pyStrip t, ?_, ?_, fun h0 => absurd h0 hms,
        fun _ e he => Except.noConfusion he,
        fun _ t' ht => by cases ht; rfl⟩
      · rw [hchat]; simp [chatWithMessage, hms]
      · rw [hchat]; simp [chatWithMessage, hms, Response.status]

/-- C10, witnessed at a concrete message and successful completion. -/
theorem C10_witness :
    ∃ reply : String,
      chat (some (.obj [("message", .str "hi")])) (.ok " yo ") =
        .ok (.obj [("reply", .str reply)]) ∧
      (chat (some (.obj [("message", .str "hi")])) (.ok " yo ")).status
        = 200 ∧
      (pyStrip "hi" = "" → reply = chatEmptyReply) ∧
      (pyStrip "hi" ≠ "" → ∀ e, (Except.ok " yo " : Except String String)
        = .error e → reply = chatFallbackReply) ∧
      (pyStrip "hi" ≠ "" → ∀ t, (Except.ok " yo " : Except String String)
        = .ok t → reply = pyStrip t) :=
  C10_chat_replies [("message", .str "hi")] "hi" (.ok " yo ") (Or.inl rfl)

end Mufasa
